import Mathlib

/-!
Verification of the RollupTileGrid Lightning Web Component.

The repository ships two variants of the grid component:
* the current, grandchild-capable variant (the unnamed source file), and
* a legacy variant (`src/lwc/rollupTileGrid/rollupTileGrid.js`) without
  grandchild support, without the date field category, and which rewrites
  the COUNT aggregation before calling the service.

This file embeds the data model and the operations of both variants as
executable Lean definitions and proves the frozen claims about them.

JavaScript built-ins used by the component (`String.prototype.trim`,
`String.prototype.toUpperCase`, `parseInt`, `parseFloat`,
`Intl.NumberFormat`) are modelled explicitly below.  Numbers are modelled
exactly as rationals; every value the claims evaluate is exactly
representable, so no floating-point rounding is observable.
-/

set_option maxRecDepth 8192

namespace RollupGrid

/-! ### Models of the JavaScript string and number built-ins -/

/-- The whitespace characters recognised by the model of
`String.prototype.trim` (space, tab, LF, VT, FF, CR). -/
def jsWhitespaceB (c : Char) : Bool :=
  c.toNat = 32 || c.toNat = 9 || c.toNat = 10 || c.toNat = 11 ||
    c.toNat = 12 || c.toNat = 13

/-- ASCII uppercase conversion of one character, the model of
`String.prototype.toUpperCase` on the ASCII inputs this component handles. -/
def asciiUpperChar (c : Char) : Char :=
  if 97 ≤ c.toNat ∧ c.toNat ≤ 122 then Char.ofNat (c.toNat - 32) else c

/-- ASCII lowercase conversion of one character, the model of
`String.prototype.toLowerCase` on ASCII inputs. -/
def asciiLowerChar (c : Char) : Char :=
  if 65 ≤ c.toNat ∧ c.toNat ≤ 90 then Char.ofNat (c.toNat + 32) else c

def jsToUpper (s : String) : String := ⟨s.data.map asciiUpperChar⟩

def jsToLower (s : String) : String := ⟨s.data.map asciiLowerChar⟩

/-- Trim on character lists: drop whitespace from both ends. -/
def jsTrimList (l : List Char) : List Char :=
  ((l.dropWhile jsWhitespaceB).reverse.dropWhile jsWhitespaceB).reverse

/-- Model of `String.prototype.trim`. -/
def jsTrim (s : String) : String := ⟨jsTrimList s.data⟩

/-- JavaScript truthiness of a nullable string: `null`, `undefined` and
the empty string are falsy. -/
def jsTruthy : Option String → Bool
  | none => false
  | some s => !s.isEmpty

/-- JavaScript `a || b` on nullable strings. -/
def jsOr (a b : Option String) : Option String :=
  if jsTruthy a then a else b

/-- Substring test on character lists (needle occurs inside haystack). -/
def listContainsSub : List Char → List Char → Bool
  | [], needle => needle.isEmpty
  | c :: t, needle => needle.isPrefixOf (c :: t) || listContainsSub t needle

/-- `strContainsSub hay needle` holds when `needle` occurs in `hay`. -/
def strContainsSub (hay needle : String) : Bool :=
  listContainsSub hay.data needle.data

def isAsciiDigit (c : Char) : Bool := 48 ≤ c.toNat && c.toNat ≤ 57

/-- Numeric value of a list of decimal digit characters. -/
def digitsVal (l : List Char) : Nat :=
  l.foldl (fun a c => a * 10 + (c.toNat - 48)) 0

/-- Model of `parseInt(v, 10)`: skip leading whitespace, optional sign,
then the longest run of decimal digits; no digits means `NaN` (`none`). -/
def jsParseInt (v : Option String) : Option Int :=
  match v with
  | none => none
  | some s =>
    let l := s.data.dropWhile jsWhitespaceB
    let signAndRest : Int × List Char :=
      match l with
      | c :: rest =>
        if c = Char.ofNat 45 then (-1, rest)
        else if c = Char.ofNat 43 then (1, rest)
        else (1, c :: rest)
      | [] => (1, [])
    let ds := signAndRest.2.takeWhile isAsciiDigit
    if ds.isEmpty then none
    else some (signAndRest.1 * (digitsVal ds : Int))

/-- An exact decimal number `mant * 10 ^ exp`.  This is the model of the
JavaScript numbers flowing through the component: every number the claims
evaluate is an exact decimal, so this representation is lossless. -/
structure JsNumber where
  mant : Int
  exp : Int
deriving DecidableEq

/-- Model of `parseFloat`: leading whitespace, optional sign, integer
digits, optional fraction, optional exponent; the longest valid numeric
prefix is parsed and no digits at all means `NaN` (`none`).  The exotic
`Infinity` literal is not produced by this component and is not modelled. -/
def jsParseFloat (s : String) : Option JsNumber :=
  let l := s.data.dropWhile jsWhitespaceB
  let signAndRest : Int × List Char :=
    match l with
    | c :: rest =>
      if c = Char.ofNat 45 then (-1, rest)
      else if c = Char.ofNat 43 then (1, rest)
      else (1, c :: rest)
    | [] => (1, [])
  let ip := signAndRest.2.takeWhile isAsciiDigit
  let afterIp := signAndRest.2.dropWhile isAsciiDigit
  let fpAndRest : List Char × List Char :=
    match afterIp with
    | c :: rest =>
      if c = Char.ofNat 46 then (rest.takeWhile isAsciiDigit, rest.dropWhile isAsciiDigit)
      else ([], afterIp)
    | [] => ([], [])
  let fp := fpAndRest.1
  if ip.isEmpty ∧ fp.isEmpty then none
  else
    let expVal : Int :=
      match fpAndRest.2 with
      | c :: rest =>
        if c = Char.ofNat 101 ∨ c = Char.ofNat 69 then
          let expSignAndRest : Int × List Char :=
            match rest with
            | d :: rest2 =>
              if d = Char.ofNat 45 then (-1, rest2)
              else if d = Char.ofNat 43 then (1, rest2)
              else (1, d :: rest2)
            | [] => (1, [])
          let eds := expSignAndRest.2.takeWhile isAsciiDigit
          if eds.isEmpty then 0 else expSignAndRest.1 * (digitsVal eds : Nat)
        else 0
      | [] => 0
    some { mant := signAndRest.1 * (digitsVal (ip ++ fp) : Nat)
           exp := expVal - fp.length }

/-- `mant * 10 ^ exp * 10 ^ maxFrac` rounded half away from zero to an
integer, the default rounding of `Intl.NumberFormat`. -/
def scaleAndRoundHalfExpand (v : JsNumber) (maxFrac : Nat) : Int :=
  let k : Int := v.exp + maxFrac
  if 0 ≤ k then v.mant * ((10 ^ k.toNat : Nat) : Int)
  else
    let d : Nat := 10 ^ (-k).toNat
    let m : Nat := v.mant.natAbs
    let rounded : Nat := m / d + (if d ≤ 2 * (m % d) then 1 else 0)
    if v.mant < 0 then -(rounded : Int) else (rounded : Int)

/-- Insert a group separator after every third digit, working on the
reversed digit list. -/
def groupDigitsRev : List Char → Nat → List Char
  | [], _ => []
  | c :: rest, cnt =>
    if cnt ≠ 0 ∧ cnt % 3 = 0 then Char.ofNat 44 :: c :: groupDigitsRev rest (cnt + 1)
    else c :: groupDigitsRev rest (cnt + 1)

/-- Thousands grouping of a digit string, e.g. `1234` to `1,234`. -/
def groupThousands (ds : List Char) : List Char :=
  (groupDigitsRev ds.reverse 0).reverse

/-- Grouped decimal rendering of a natural number (en-US grouping, the
locale in which the specified scenarios are stated). -/
def intlGroupedNat (n : Nat) : String := ⟨groupThousands (Nat.toDigits 10 n)⟩

/-- Model of `Intl.NumberFormat(LOCALE).format` on an integer: grouped
digits with a leading minus sign for negatives. -/
def intlFormatInt (i : Int) : String :=
  (if i < 0 then ("-" : String) else "") ++ intlGroupedNat i.natAbs

def padZerosTo (k : Nat) (ds : List Char) : List Char :=
  List.replicate (k - ds.length) (Char.ofNat 48) ++ ds

def dropTrailingZeros (ds : List Char) : List Char :=
  (ds.reverse.dropWhile (fun c => c = Char.ofNat 48)).reverse

/-- Model of
`Intl.NumberFormat(LOCALE, {minimumFractionDigits: 0, maximumFractionDigits: maxFrac}).format`:
round half away from zero to at most `maxFrac` fraction digits, drop the
trailing zero fraction digits (the minimum is zero), and group the integer
part. -/
def intlFormatNumber (v : JsNumber) (maxFrac : Nat) : String :=
  let p : Nat := 10 ^ maxFrac
  let scaled : Int := scaleAndRoundHalfExpand v maxFrac
  let sign : String := if scaled < 0 then "-" else ""
  let a := scaled.natAbs
  let ip := a / p
  let fp := a % p
  let fracDs := dropTrailingZeros (padZerosTo maxFrac (Nat.toDigits 10 fp))
  sign ++ intlGroupedNat ip ++
    (if fracDs.isEmpty then "" else "." ++ (⟨fracDs⟩ : String))

/-! ### Aggregation-type catalog (module-level constants of the source) -/

def VALID_AGGREGATION_TYPES : List String :=
  ["SUM", "AVERAGE", "MAX", "MIN", "COUNT", "COUNT_DISTINCT",
   "CONCATENATE", "CONCATENATE_DISTINCT", "FIRST", "LAST"]

/-- Aggregations that produce numeric values (used for number formatting). -/
def NUMERIC_TYPES : List String :=
  ["SUM", "AVERAGE", "MAX", "MIN", "COUNT", "COUNT_DISTINCT"]

/-- Aggregations that imply a numeric field. -/
def NUMERIC_FIELD_AGG_TYPES : List String := ["SUM", "AVERAGE", "MAX", "MIN"]

/-- Aggregations that imply a text-like field. -/
def TEXT_FIELD_AGG_TYPES : List String := ["CONCATENATE", "CONCATENATE_DISTINCT"]

def NUMERIC_FIELD_ALLOWED_AGG_TYPES : List String :=
  ["SUM", "AVERAGE", "MAX", "MIN", "COUNT", "COUNT_DISTINCT", "FIRST", "LAST"]

def TEXT_FIELD_ALLOWED_AGG_TYPES : List String :=
  ["CONCATENATE", "CONCATENATE_DISTINCT", "COUNT", "COUNT_DISTINCT", "FIRST", "LAST"]

def DATE_FIELD_ALLOWED_AGG_TYPES : List String :=
  ["MAX", "MIN", "COUNT", "COUNT_DISTINCT"]

/-- Base aggregation options shared by all tiles: label and value pairs. -/
def BASE_AGGREGATION_OPTIONS : List (String × String) :=
  [("Average", "AVERAGE"),
   ("Concatenate", "CONCATENATE"),
   ("Concatenate Distinct", "CONCATENATE_DISTINCT"),
   ("Count", "COUNT"),
   ("Count Distinct", "COUNT_DISTINCT"),
   ("Max", "MAX"),
   ("Min", "MIN"),
   ("Sum", "SUM")]

/-- `normalizeAggTypeValue(raw)`: normalize an aggregation type value into
the canonical form (trim, upper-case, map the legacy alias AVG to
AVERAGE, null for empty or absent input). -/
def normalizeAggTypeValue (raw : Option String) : Option String :=
  match raw with
  | none => none
  | some s =>
    let upper := jsToUpper (jsTrim s)
    if upper.isEmpty then none
    else if upper = ("AVG" : String) then some ("AVERAGE")
    else some upper

/-- `inferFieldCategoryFromAggregationType`: heuristic field category used
before any server metadata exists. -/
def inferFieldCategoryFromAggregationType (rawAggType : Option String) : String :=
  match normalizeAggTypeValue rawAggType with
  | none => "unknown"
  | some canonical =>
    if NUMERIC_FIELD_AGG_TYPES.contains canonical then "numeric"
    else if TEXT_FIELD_AGG_TYPES.contains canonical then "text"
    else "unknown"

/-! ### Tile view model -/

structure MenuOption where
  label : String
  value : String
  isSelected : Bool
  itemClass : String
  ariaChecked : String
deriving DecidableEq

/-- One tile of the grid: configuration, runtime state and derived view
fields, exactly the fields built by `buildInitialTileConfig`.  Nullable
JavaScript values are `Option`s; `recordCount` is an integer because the
aggregation service declares it as one. -/
structure Tile where
  index : Nat
  label : Option String
  aggregateFieldApiName : Option String
  initialAggregationType : Option String
  filterCondition : Option String
  decimalPlaces : Option Int
  fieldCategory : Option String
  aggregateType : Option String
  isLoading : Bool
  error : Option String
  value : Option String
  recordCount : Option Int
  isCurrency : Bool
  isPercent : Bool
  isDate : Bool
  fieldLabel : Option String
  isAggregationMenuOpen : Bool
  displayValue : String
  hasRecordCount : Bool
  summaryRecordLabel : Option String
  summaryLabel : Option String
  aggregationMenuOptions : List MenuOption
  gearMenuClass : String
deriving DecidableEq

/-- `resolveFieldCategory(tile)`: finalize the field category from the
stored category plus the runtime currency/percent/date hints. -/
def resolveFieldCategory (tile : Tile) : String :=
  let category :=
    match tile.fieldCategory with
    | none => "unknown"
    | some c => if c.isEmpty then "unknown" else c
  if tile.isDate then "date"
  else if tile.isCurrency || tile.isPercent then "numeric"
  else category

/-- `getAllowedAggregationsForCategory(category)`: `none` means no
filtering, show all aggregation options. -/
def getAllowedAggregationsForCategory (category : String) : Option (List String) :=
  if category = ("numeric" : String) then some NUMERIC_FIELD_ALLOWED_AGG_TYPES
  else if category = ("text" : String) then some TEXT_FIELD_ALLOWED_AGG_TYPES
  else if category = ("date" : String) then some DATE_FIELD_ALLOWED_AGG_TYPES
  else none

/-! ### Grid instance context (the `@api` properties of one instance) -/

/-- The design-time properties of one grid instance.  The twenty-five
numbered per-tile properties (`tile1Label`, `tile2Label`, ...) are modelled
as functions from the slot index. -/
structure GridContext where
  recordId : Option String
  rows : Option String
  columns : Option String
  childObjectApiName : Option String
  relationshipFieldApiName : Option String
  grandchildObjectApiName : Option String
  grandchildRelationshipFieldApiName : Option String
  decimalPlaces : Option Int
  tileLabel : Nat → Option String
  tileAggregateFieldApiName : Nat → Option String
  tileInitialAggregationType : Nat → Option String
  tileFilterCondition : Nat → Option String

/-- Truthiness of `x && x.toString().trim()`: present and not blank. -/
def trimTruthy : Option String → Bool
  | none => false
  | some s => !s.isEmpty && !(jsTrim s).isEmpty

/-- `isGrandchildMode`: both grandchild properties are populated (non-blank
after trimming). -/
def isGrandchildMode (ctx : GridContext) : Bool :=
  trimTruthy ctx.grandchildObjectApiName &&
    trimTruthy ctx.grandchildRelationshipFieldApiName

/-- `aggregateObjectApiNameForLabel`: grandchild object in grandchild mode,
else the child object. -/
def aggregateObjectApiNameForLabel (ctx : GridContext) : Option String :=
  if isGrandchildMode ctx && jsTruthy ctx.grandchildObjectApiName then
    ctx.grandchildObjectApiName
  else ctx.childObjectApiName

/-- The list of missing-property names collected by `globalConfigError`. -/
def globalMissingList (ctx : GridContext) : List String :=
  (if jsTruthy ctx.childObjectApiName then [] else ["Child Object"]) ++
  (if jsTruthy ctx.relationshipFieldApiName then []
   else ["Relationship Field (lookup on child)"]) ++
  (if trimTruthy ctx.grandchildObjectApiName ||
      trimTruthy ctx.grandchildRelationshipFieldApiName then
    (if jsTruthy ctx.grandchildObjectApiName then [] else ["Grandchild Object"]) ++
    (if jsTruthy ctx.grandchildRelationshipFieldApiName then []
     else ["Relationship Field (lookup on grandchild)"])
  else [])

/-- `missing.join(', ')` of the source: the JavaScript array join. -/
def joinCommaSpace : List String → String
  | [] => ""
  | a :: rest => rest.foldl (fun acc s => acc ++ ", " ++ s) a

/-- `globalConfigError`: the shared configuration error, `none` when the
shared configuration is complete. -/
def globalConfigError (ctx : GridContext) : Option String :=
  let missing := globalMissingList ctx
  if missing.isEmpty then none
  else
    some ("Rollup Tile Grid is not fully configured yet. Missing: " ++
      joinCommaSpace missing ++
      ". In the Lightning App Builder, set these properties (and at minimum configure \"Tile 1 Aggregate Field\") before using this component.")

/-! ### Humanized object label (`childObjectLabelSingular`) -/

/-- Case-insensitive test that `s` ends with the lowercase suffix `suf`. -/
def endsWithCI (s : String) (suf : String) : Bool :=
  suf.data.reverse.isPrefixOf ((s.data.map asciiLowerChar).reverse)

def dropRightStr (s : String) (k : Nat) : String :=
  ⟨s.data.take (s.data.length - k)⟩

/-- `replace(/([a-z])([A-Z])/g, ...)`: insert a space between a lowercase
letter and the uppercase letter that follows it. -/
def insertCamelSpacesL : List Char → List Char
  | [] => []
  | [c] => [c]
  | a :: b :: rest =>
    if (97 ≤ a.toNat && a.toNat ≤ 122) && (65 ≤ b.toNat && b.toNat ≤ 90) then
      a :: Char.ofNat 32 :: insertCamelSpacesL (b :: rest)
    else a :: insertCamelSpacesL (b :: rest)

/-- `words.join(' ')` of the source: the JavaScript array join. -/
def joinWithSpace : List String → String
  | [] => ""
  | a :: rest => rest.foldl (fun acc s => acc ++ " " ++ s) a

/-- `w[0].toUpperCase() + w.slice(1).toLowerCase()` on one word. -/
def capitalizeWord (w : String) : String :=
  match w.data with
  | [] => ""
  | c :: rest => ⟨asciiUpperChar c :: rest.map asciiLowerChar⟩

/-- `childObjectLabelSingular`: humanized singular label of the object the
grid aggregates over (strip `__c`/`__x`, strip one namespace segment, space
out camel case and underscores, Title Case each word, default `record`). -/
def childObjectLabelSingular (ctx : GridContext) : String :=
  match aggregateObjectApiNameForLabel ctx with
  | none => "record"
  | some apiName =>
    if apiName.isEmpty then "record"
    else
      let name := jsTrim apiName
      let name := if endsWithCI name ("__c") then dropRightStr name 3 else name
      let name := if endsWithCI name ("__x") then dropRightStr name 3 else name
      let parts := name.splitOn ("__")
      let name := if parts.length > 1 then parts.getD 1 "" else name
      let name : String := ⟨name.data.map (fun c => if c = Char.ofNat 95 then Char.ofNat 32 else c)⟩
      let name : String := ⟨insertCamelSpacesL name.data⟩
      let name := jsTrim name
      if name.isEmpty then "record"
      else
        let words := name.splitOn (" ")
        let name := joinWithSpace (words.map capitalizeWord)
        let name := jsTrim name
        if name.isEmpty then "record" else name

/-! ### Derived-field recomputation (`recomputeTileDerivedFields`) -/

/-- The aggregation type a tile currently works with:
`tile.aggregateType || tile.initialAggregationType || 'SUM'`. -/
def selectedAggregateType (tile : Tile) : String :=
  (jsOr tile.aggregateType (jsOr tile.initialAggregationType (some ("SUM")))).getD ("SUM")

/-- The normalized aggregation type computed at the top of
`recomputeTileDerivedFields`. -/
def normalizedAggTypeOf (tile : Tile) : String :=
  (normalizeAggTypeValue (some (selectedAggregateType tile))).getD ("SUM")

/-- The `displayValue` block of `recomputeTileDerivedFields`: dash for
absent or empty values; numeric aggregates are parsed as floats and, on
success, formatted with grouping and at most `decimalPlaces` fraction
digits and wrapped with the currency or percent marker; parse failures and
non-numeric aggregates render the raw value unmodified.  An out-of-range
fraction-digit count makes `Intl.NumberFormat` throw; the catch block
falls back to the raw value. -/
def computeDisplayValue (value : Option String) (isNumericAggregate : Bool)
    (decimalPlaces : Option Int) (isCurrency isPercent : Bool) : String :=
  match value with
  | none => "-"
  | some v =>
    if v.isEmpty then "-"
    else if isNumericAggregate then
      match jsParseFloat v with
      | none => v
      | some num =>
        let fractionDigits : Int := decimalPlaces.getD 2
        if 0 ≤ fractionDigits ∧ fractionDigits ≤ 20 then
          let formatted := intlFormatNumber num fractionDigits.toNat
          if isCurrency then "$" ++ formatted
          else if isPercent then formatted ++ "%"
          else formatted
        else v
    else v

/-- A single apostrophe, written by code point to keep the source ASCII. -/
def apos : String := ⟨[Char.ofNat 39]⟩

/-- The body of `recomputeTileDerivedFields`, parameterized by the already
resolved `childObjectLabelSingular` of the owning instance (the only part
of the instance the method reads). -/
def recomputeCore (objectLabelSingular : String) (tile : Tile) : Tile :=
  let aggregateType := normalizedAggTypeOf tile
  let isDateAggregate :=
    tile.isDate && (aggregateType = ("MIN" : String) || aggregateType = ("MAX" : String))
  let isNumericAggregate := NUMERIC_TYPES.contains aggregateType && !isDateAggregate
  let fieldCategory := resolveFieldCategory tile
  let allowedSet := getAllowedAggregationsForCategory fieldCategory
  let displayValue :=
    computeDisplayValue tile.value isNumericAggregate tile.decimalPlaces
      tile.isCurrency tile.isPercent
  let hasRecordCount := tile.recordCount.isSome
  let summaryRecordLabel : Option String :=
    match tile.recordCount with
    | none => none
    | some count =>
      let objectLabel :=
        if objectLabelSingular.isEmpty then "record" else objectLabelSingular
      let formattedCount := intlFormatInt count
      let recordWord := if count = 1 then "record" else "records"
      some (formattedCount ++ " " ++ objectLabel ++ " " ++ recordWord)
  let serverLabel := match tile.fieldLabel with
    | none => ""
    | some s => if s.isEmpty then "" else jsTrim s
  let fieldLabelForSummary :=
    if !serverLabel.isEmpty then serverLabel
    else
      let explicitLabel := match tile.label with
        | none => ""
        | some s => if s.isEmpty then "" else jsTrim s
      if !explicitLabel.isEmpty then explicitLabel
      else
        let apiName := match tile.aggregateFieldApiName with
          | none => ""
          | some s => if s.isEmpty then "" else jsTrim s
        if !apiName.isEmpty then apiName else "this field"
  let friendlyAggregationLabel :=
    if aggregateType = ("AVERAGE" : String) ∨ aggregateType = ("AVG" : String) then "Average"
    else if aggregateType = ("COUNT" : String) then "Count"
    else if aggregateType = ("COUNT_DISTINCT" : String) then "Distinct count"
    else if aggregateType = ("MAX" : String) then "Maximum"
    else if aggregateType = ("MIN" : String) then "Minimum"
    else if aggregateType = ("FIRST" : String) then "First value"
    else if aggregateType = ("LAST" : String) then "Last value"
    else if aggregateType = ("CONCATENATE" : String) then "Combined values"
    else if aggregateType = ("CONCATENATE_DISTINCT" : String) then "Unique combined values"
    else "Sum"
  let summaryLabel :=
    match summaryRecordLabel with
    | some srl =>
      friendlyAggregationLabel ++ " of " ++ apos ++ fieldLabelForSummary ++
        apos ++ " across " ++ srl
    | none =>
      friendlyAggregationLabel ++ " of " ++ apos ++ fieldLabelForSummary ++ apos
  let aggregationMenuOptions :=
    (BASE_AGGREGATION_OPTIONS.filter (fun opt =>
        match allowedSet with
        | none => true
        | some allowed => allowed.contains opt.2)).map (fun opt =>
      let isSelected := opt.2 = aggregateType
      { label := opt.1
        value := opt.2
        isSelected
        itemClass := "slds-dropdown__item" ++ (if isSelected then " slds-is-selected" else "")
        ariaChecked := if isSelected then "true" else "false" : MenuOption })
  let gearMenuClass :=
    "st-rollup-gear-menu slds-dropdown-trigger slds-dropdown-trigger_click" ++
      (if tile.isAggregationMenuOpen then " slds-is-open" else "")
  { tile with
    aggregateType := some aggregateType
    fieldCategory := some fieldCategory
    displayValue
    hasRecordCount
    summaryRecordLabel
    summaryLabel := some summaryLabel
    aggregationMenuOptions
    gearMenuClass }

/-- `recomputeTileDerivedFields(tile)` of the current variant. -/
def recomputeTileDerivedFields (ctx : GridContext) (tile : Tile) : Tile :=
  recomputeCore (childObjectLabelSingular ctx) tile

/-! ### Tile initialization -/

/-- `normalizeAggregationType(raw)` (instance method): canonical value or
the defensive SUM fallback. -/
def normalizeAggregationType (raw : Option String) : String :=
  match normalizeAggTypeValue raw with
  | none => "SUM"
  | some canonical =>
    if VALID_AGGREGATION_TYPES.contains canonical then canonical else "SUM"

/-- `buildInitialTileConfig(index)`. -/
def buildInitialTileConfig (ctx : GridContext) (index : Nat) : Tile :=
  let label := ctx.tileLabel index
  let aggregateFieldApiName := ctx.tileAggregateFieldApiName index
  let rawAggregationType := ctx.tileInitialAggregationType index
  let filterCondition := ctx.tileFilterCondition index
  let initialAggregationType := normalizeAggregationType rawAggregationType
  let fieldCategory := inferFieldCategoryFromAggregationType (some initialAggregationType)
  let decimalPlaces := ctx.decimalPlaces.getD 2
  recomputeTileDerivedFields ctx
    { index
      label := jsOr label (some ("Tile " ++ toString index))
      aggregateFieldApiName
      initialAggregationType := some initialAggregationType
      filterCondition
      decimalPlaces := some decimalPlaces
      fieldCategory := some fieldCategory
      aggregateType := some initialAggregationType
      isLoading := false
      error := none
      value := none
      recordCount := none
      isCurrency := false
      isPercent := false
      isDate := false
      fieldLabel := none
      isAggregationMenuOpen := false
      displayValue := "-"
      hasRecordCount := false
      summaryRecordLabel := none
      summaryLabel := none
      aggregationMenuOptions := []
      gearMenuClass := "" }

/-- `normalizeDimension(value, min, max)`: parse as integer, clamp. -/
def normalizeDimension (value : Option String) (mi ma : Int) : Int :=
  match jsParseInt value with
  | none => mi
  | some num => if num < mi then mi else if num > ma then ma else num

def MAX_ROWS : Int := 5
def MAX_COLUMNS : Int := 5
def MAX_TILES : Nat := 25

def normalizedRows (ctx : GridContext) : Int :=
  normalizeDimension ctx.rows 1 MAX_ROWS

def normalizedColumns (ctx : GridContext) : Int :=
  normalizeDimension ctx.columns 1 MAX_COLUMNS

/-- The number of materialized tile slots: `min(rows * cols, MAX_TILES)`. -/
def slotCount (ctx : GridContext) : Nat :=
  min ((normalizedRows ctx).toNat * (normalizedColumns ctx).toNat) MAX_TILES

/-- `initializeTilesFromConfig()`: build one tile per slot index `1..maxSlots`. -/
def initializeTilesFromConfig (ctx : GridContext) : List Tile :=
  (List.range (slotCount ctx)).map (fun i => buildInitialTileConfig ctx (i + 1))

/-! ### Load orchestration (`loadTile`) -/

/-- The request object passed to `getRollup` by the current variant. -/
structure RollupRequest where
  parentId : Option String
  childObjectApiName : Option String
  relationshipFieldApiName : Option String
  aggregateFieldApiName : Option String
  aggregateType : String
  filterCondition : Option String
  grandchildObjectApiName : Option String
  grandchildRelationshipFieldApiName : Option String
deriving DecidableEq

/-- The request object passed to `getRollup` by the legacy variant, which
has no grandchild parameters. -/
structure LegacyRollupRequest where
  parentId : Option String
  childObjectApiName : Option String
  relationshipFieldApiName : Option String
  aggregateFieldApiName : Option String
  aggregateType : String
  filterCondition : Option String
deriving DecidableEq

/-- The response shape of the aggregation service. -/
structure RollupResponse where
  value : Option String
  recordCount : Option Int
  isCurrency : Bool
  isPercent : Bool
  isDate : Bool
  fieldLabel : Option String
  errorMessage : Option String
deriving DecidableEq

/-- Request construction of the current variant (`loadTile`, after the
loading reset): the aggregation type is passed through verbatim — the
source notes that COUNT is now sent straight to Apex — and the grandchild
identifiers are sent only in grandchild mode, explicit nulls otherwise. -/
def buildRollupRequest (ctx : GridContext) (tileAfterReset : Tile) : RollupRequest :=
  { parentId := ctx.recordId
    childObjectApiName := ctx.childObjectApiName
    relationshipFieldApiName := ctx.relationshipFieldApiName
    aggregateFieldApiName := tileAfterReset.aggregateFieldApiName
    aggregateType := selectedAggregateType tileAfterReset
    filterCondition := tileAfterReset.filterCondition
    grandchildObjectApiName :=
      if isGrandchildMode ctx then ctx.grandchildObjectApiName else none
    grandchildRelationshipFieldApiName :=
      if isGrandchildMode ctx then ctx.grandchildRelationshipFieldApiName else none }

/-- Aggregation type sent by the legacy variant: COUNT is rewritten to
`COUNT()` before the call. -/
def legacyAggregateTypeToUse (tileAfterReset : Tile) : String :=
  let a := selectedAggregateType tileAfterReset
  if a = ("COUNT" : String) then "COUNT()" else a

/-- Request construction of the legacy variant (`loadTile` of
`rollupTileGrid.js`). -/
def buildLegacyRollupRequest (ctx : GridContext) (tileAfterReset : Tile) :
    LegacyRollupRequest :=
  { parentId := ctx.recordId
    childObjectApiName := ctx.childObjectApiName
    relationshipFieldApiName := ctx.relationshipFieldApiName
    aggregateFieldApiName := tileAfterReset.aggregateFieldApiName
    aggregateType := legacyAggregateTypeToUse tileAfterReset
    filterCondition := tileAfterReset.filterCondition }

/-- The per-tile configuration message of `loadTile`. -/
def perTileConfigMessage (index : Nat) : String :=
  "Tile " ++ toString index ++ " is not fully configured. Set \"Tile " ++
    toString index ++ " Aggregate Field\" in the Lightning App Builder."

/-- Reset of one tile into an error state, as performed by every error
path of `loadTile` (spread, clear data fields, recompute). -/
def loadTileErrorState (ctx : GridContext) (tile : Tile) (msg : String) : Tile :=
  recomputeTileDerivedFields ctx
    { tile with
      isLoading := false
      error := some msg
      value := none
      recordCount := none
      isCurrency := false
      isPercent := false
      isDate := false
      fieldLabel := none }

/-- Reset of one tile into the loading state. -/
def loadTileLoadingState (ctx : GridContext) (tile : Tile) : Tile :=
  recomputeTileDerivedFields ctx
    { tile with
      isLoading := true
      error := none
      value := none
      recordCount := none
      isCurrency := false
      isPercent := false
      isDate := false
      fieldLabel := none }

/-- Outcome of the synchronous precondition phase of `loadTile(index)`:
either a terminal error applied to the tile without any service call, or
the request that is sent to the aggregation service. -/
inductive LoadTileStart where
  | globalError (msg : String)
  | missingTile
  | tileConfigError (msg : String)
  | callService (req : RollupRequest)
deriving DecidableEq

/-- The precondition phase of `loadTile(index)` of the current variant,
checked in source order: shared configuration first, then the per-tile
aggregate field; only when both pass is a request built (from the tile
after the loading reset). -/
def loadTileStart (ctx : GridContext) (tiles : List Tile) (index : Nat) :
    LoadTileStart :=
  match globalConfigError ctx with
  | some msg => .globalError msg
  | none =>
    match tiles.find? (fun t => t.index = index) with
    | none => .missingTile
    | some currentTile =>
      if !(jsTruthy currentTile.aggregateFieldApiName) then
        .tileConfigError (perTileConfigMessage index)
      else
        .callService (buildRollupRequest ctx (loadTileLoadingState ctx currentTile))

/-- The tile array after the precondition phase of `loadTile(index)`: on a
precondition failure the failing tile carries the error message and no
request exists; otherwise the tile is loading and the request is returned. -/
def loadTileSync (ctx : GridContext) (tiles : List Tile) (index : Nat) :
    List Tile × Option RollupRequest :=
  match loadTileStart ctx tiles index with
  | .globalError msg =>
    (tiles.map (fun t => if t.index = index then loadTileErrorState ctx t msg else t),
      none)
  | .missingTile => (tiles, none)
  | .tileConfigError msg =>
    (tiles.map (fun t => if t.index = index then loadTileErrorState ctx t msg else t),
      none)
  | .callService req =>
    (tiles.map (fun t => if t.index = index then loadTileLoadingState ctx t else t),
      some req)

/-- State update of `loadTile` when the race settles with `data` (the
service resolved): falsy data is the no-data error; a response with a
truthy `errorMessage` keeps the message and still adopts the metadata but
drops the value; otherwise value and metadata are adopted. -/
def applySettledData (ctx : GridContext) (tile : Tile) (data : Option RollupResponse) :
    Tile :=
  match data with
  | none =>
    recomputeTileDerivedFields ctx
      { tile with
        isLoading := false
        error := some ("No data was returned for this rollup.")
        value := none
        recordCount := none
        isCurrency := false
        isPercent := false
        isDate := false
        fieldLabel := none }
  | some d =>
    if jsTruthy d.errorMessage then
      recomputeTileDerivedFields ctx
        { tile with
          isLoading := false
          error := d.errorMessage
          value := none
          recordCount := d.recordCount
          isCurrency := d.isCurrency
          isPercent := d.isPercent
          isDate := d.isDate
          fieldLabel := d.fieldLabel }
    else
      recomputeTileDerivedFields ctx
        { tile with
          isLoading := false
          error := none
          value := d.value
          recordCount := d.recordCount
          isCurrency := d.isCurrency
          isPercent := d.isPercent
          isDate := d.isDate
          fieldLabel := d.fieldLabel }

/-! ### Cross-instance refresh coordination -/

/-- `handleRefreshAllClick` broadcasts `sourceRecordId: this.recordId || null`. -/
def refreshSignalOf (recordId : Option String) : Option String :=
  if jsTruthy recordId then recordId else none

/-- `handleGlobalRefresh`: returns whether the listening instance calls
`refreshAll()` for a signal carrying `sourceRecordId`, given the listening
instance bound to `recordId`. -/
def handleGlobalRefresh (sourceRecordId recordId : Option String) : Bool :=
  if jsTruthy sourceRecordId = true ∧ jsTruthy recordId = true ∧
      sourceRecordId ≠ recordId then
    false
  else true

/-! ### Dropdown menu handling -/

/-- `closeAllAggregationMenus()`: close every open menu (the array is only
reassigned when some menu was open). -/
def closeAllAggregationMenus (ctx : GridContext) (tiles : List Tile) : List Tile :=
  if tiles.any (·.isAggregationMenuOpen) then
    tiles.map (fun tile =>
      if tile.isAggregationMenuOpen then
        recomputeTileDerivedFields ctx { tile with isAggregationMenuOpen := false }
      else tile)
  else tiles

/-- `handleGearClick` on tile `index` (index 0 models the falsy dataset
index on which the handler returns early): toggle the clicked tile's menu
and close every other open menu. -/
def handleGearClick (ctx : GridContext) (tiles : List Tile) (index : Nat) :
    List Tile :=
  if index = 0 then tiles
  else
    tiles.map (fun tile =>
      if tile.index = index then
        recomputeTileDerivedFields ctx
          { tile with isAggregationMenuOpen := !tile.isAggregationMenuOpen }
      else if tile.isAggregationMenuOpen then
        recomputeTileDerivedFields ctx { tile with isAggregationMenuOpen := false }
      else tile)

/-- `handleAggregationMenuClick` (the tile-array update only; the
subsequent `loadTile` call is load orchestration): an empty value closes
the clicked tile's menu, otherwise the clicked tile adopts the normalized
type and its menu closes. -/
def handleAggregationMenuClick (ctx : GridContext) (tiles : List Tile)
    (index : Nat) (newTypeRaw : Option String) : List Tile :=
  if index = 0 then tiles
  else
    let newTypeUpper := jsToUpper (newTypeRaw.getD (""))
    if newTypeUpper.isEmpty then
      tiles.map (fun tile =>
        if tile.index = index then
          recomputeTileDerivedFields ctx { tile with isAggregationMenuOpen := false }
        else tile)
    else
      tiles.map (fun tile =>
        if tile.index ≠ index then tile
        else
          recomputeTileDerivedFields ctx
            { tile with
              aggregateType := some (normalizeAggregationType (some newTypeUpper))
              isAggregationMenuOpen := false })

/-! ### Helper lemmas: substring search -/

theorem isPrefixOf_append_self (l t : List Char) : l.isPrefixOf (l ++ t) = true := by
  induction l with
  | nil => simp [List.isPrefixOf]
  | cons c cs ih => simp [List.isPrefixOf, ih]

theorem listContainsSub_append_middle (a b c : List Char) :
    listContainsSub (a ++ (b ++ c)) b = true := by
  induction a with
  | nil =>
    rw [List.nil_append]
    cases b with
    | nil =>
      cases c with
      | nil => rfl
      | cons c0 ct => simp [listContainsSub, List.isPrefixOf]
    | cons b0 bt =>
      rw [List.cons_append]
      show (List.isPrefixOf (b0 :: bt) (b0 :: (bt ++ c)) ||
        listContainsSub (bt ++ c) (b0 :: bt)) = true
      rw [← List.cons_append, isPrefixOf_append_self, Bool.true_or]
  | cons a0 at' ih =>
    rw [List.cons_append]
    show (List.isPrefixOf b (a0 :: (at' ++ (b ++ c))) ||
      listContainsSub (at' ++ (b ++ c)) b) = true
    rw [ih, Bool.or_true]

theorem strContainsSub_append (x y z : String) :
    strContainsSub (x ++ y ++ z) y = true := by
  have hd : (x ++ y ++ z).data = x.data ++ (y.data ++ z.data) := by
    simp [String.data_append]
  rw [strContainsSub, hd]
  exact listContainsSub_append_middle x.data y.data z.data

theorem joinCommaSpace_foldl_shift (rest : List String) (acc : String) :
    rest.foldl (fun acc s => acc ++ ", " ++ s) acc =
      acc ++ rest.foldl (fun acc s => acc ++ ", " ++ s) "" := by
  induction rest generalizing acc with
  | nil => simp [List.foldl]
  | cons r rs ih =>
    simp only [List.foldl]
    rw [ih (acc ++ ", " ++ r), ih ("" ++ ", " ++ r)]
    simp [String.append_assoc]

theorem joinCommaSpace_cons (a : String) (rest : List String) :
    joinCommaSpace (a :: rest) =
      a ++ rest.foldl (fun acc s => acc ++ ", " ++ s) "" := by
  simp only [joinCommaSpace]
  exact joinCommaSpace_foldl_shift rest a

/-! ### Helper lemmas: ASCII case mapping and trimming -/

theorem toNat_ofNat_valid {n : Nat} (h : n < 55296) : (Char.ofNat n).toNat = n := by
  have hv : n.isValidChar := Or.inl (by omega)
  rw [Char.ofNat, dif_pos hv]
  simp only [Char.ofNatAux, Char.toNat, UInt32.toNat]
  exact BitVec.toNat_ofNatLt n _

theorem asciiUpperChar_toNat (c : Char) :
    (asciiUpperChar c).toNat =
      if 97 ≤ c.toNat ∧ c.toNat ≤ 122 then c.toNat - 32 else c.toNat := by
  unfold asciiUpperChar
  split
  · next h => exact toNat_ofNat_valid (by omega)
  · rfl

theorem asciiUpperChar_eq_self (c : Char) (h : ¬(97 ≤ c.toNat ∧ c.toNat ≤ 122)) :
    asciiUpperChar c = c := by
  unfold asciiUpperChar
  rw [if_neg h]

theorem asciiUpperChar_idem (c : Char) :
    asciiUpperChar (asciiUpperChar c) = asciiUpperChar c := by
  by_cases h : 97 ≤ c.toNat ∧ c.toNat ≤ 122
  · have h1 : (asciiUpperChar c).toNat = c.toNat - 32 := by
      rw [asciiUpperChar_toNat, if_pos h]
    apply asciiUpperChar_eq_self
    rw [h1]
    omega
  · rw [asciiUpperChar_eq_self c h]
    exact asciiUpperChar_eq_self c h

theorem jsWhitespaceB_asciiUpperChar (c : Char) :
    jsWhitespaceB (asciiUpperChar c) = jsWhitespaceB c := by
  by_cases h : 97 ≤ c.toNat ∧ c.toNat ≤ 122
  · have h1 : (asciiUpperChar c).toNat = c.toNat - 32 := by
      rw [asciiUpperChar_toNat, if_pos h]
    have hl : jsWhitespaceB c = false := by
      simp only [jsWhitespaceB, Bool.or_eq_false_iff, decide_eq_false_iff_not]
      omega
    have hu : jsWhitespaceB (asciiUpperChar c) = false := by
      simp only [jsWhitespaceB, h1, Bool.or_eq_false_iff, decide_eq_false_iff_not]
      omega
    rw [hl, hu]
  · rw [asciiUpperChar_eq_self c h]

theorem dropWhile_map_upper (l : List Char) :
    (l.map asciiUpperChar).dropWhile jsWhitespaceB =
      (l.dropWhile jsWhitespaceB).map asciiUpperChar := by
  induction l with
  | nil => rfl
  | cons c cs ih =>
    simp only [List.map, List.dropWhile, jsWhitespaceB_asciiUpperChar]
    cases h : jsWhitespaceB c with
    | true => simpa [h] using ih
    | false => simp [h]

theorem jsTrimList_map_upper (l : List Char) :
    jsTrimList (l.map asciiUpperChar) = (jsTrimList l).map asciiUpperChar := by
  unfold jsTrimList
  rw [dropWhile_map_upper, ← List.map_reverse, dropWhile_map_upper, ← List.map_reverse]

theorem jsToUpper_jsTrim_comm (s : String) :
    jsToUpper (jsTrim s) = jsTrim (jsToUpper s) := by
  simp only [jsToUpper, jsTrim]
  exact congrArg String.mk (jsTrimList_map_upper s.data).symm

theorem jsToUpper_idem (s : String) : jsToUpper (jsToUpper s) = jsToUpper s := by
  simp only [jsToUpper]
  refine congrArg String.mk ?_
  simp only [List.map_map]
  exact List.map_congr_left (fun c _ => asciiUpperChar_idem c)

theorem dropWhile_dropWhile (p : Char → Bool) (l : List Char) :
    (l.dropWhile p).dropWhile p = l.dropWhile p := by
  induction l with
  | nil => rfl
  | cons c cs ih =>
    by_cases h : p c
    · simpa [List.dropWhile, h] using ih
    · simp [List.dropWhile, h]

theorem head?_dropWhile (p : Char → Bool) (l : List Char) (h : Char)
    (hh : (l.dropWhile p).head? = some h) : p h = false := by
  induction l with
  | nil => simp at hh
  | cons c cs ih =>
    by_cases hc : p c
    · exact ih (by simpa [List.dropWhile, hc] using hh)
    · simp only [List.dropWhile, hc] at hh
      simp only [if_neg, Bool.false_eq_true, List.head?] at hh
      cases hh
      simpa using hc

theorem dropWhile_of_head?_false (p : Char → Bool) (l : List Char)
    (h : ∀ c, l.head? = some c → p c = false) : l.dropWhile p = l := by
  cases l with
  | nil => rfl
  | cons c cs => simp [List.dropWhile, h c rfl]

theorem exists_append_dropWhile (p : Char → Bool) (l : List Char) :
    ∃ t, t ++ l.dropWhile p = l := by
  induction l with
  | nil => exact ⟨[], rfl⟩
  | cons c cs ih =>
    by_cases h : p c
    · obtain ⟨t, ht⟩ := ih
      exact ⟨c :: t, by simp [List.dropWhile, h, ht]⟩
    · exact ⟨[], by simp [List.dropWhile, h]⟩

theorem jsTrimList_idem (l : List Char) : jsTrimList (jsTrimList l) = jsTrimList l := by
  set p := jsWhitespaceB
  set m := l.dropWhile p with hm
  set r := m.reverse.dropWhile p with hr
  have htrim : jsTrimList l = r.reverse := rfl
  rw [htrim]
  show ((r.reverse.dropWhile p).reverse.dropWhile p).reverse = r.reverse
  have step1 : r.reverse.dropWhile p = r.reverse := by
    apply dropWhile_of_head?_false
    intro c hc
    rw [List.head?_reverse] at hc
    obtain ⟨t, ht⟩ := exists_append_dropWhile p m.reverse
    have hrne : r ≠ [] := by
      intro h0
      rw [h0] at hc
      simp at hc
    have hgl : r.getLast? = m.reverse.getLast? := by
      conv_rhs => rw [← ht]
      rw [List.getLast?_append_of_ne_nil _ hrne]
    rw [hgl, List.getLast?_reverse] at hc
    exact head?_dropWhile p l c (hm ▸ hc)
  rw [step1, List.reverse_reverse]
  have step2 : r.dropWhile p = r := by
    rw [hr]
    exact dropWhile_dropWhile p m.reverse
  rw [step2]

theorem jsTrim_idem (s : String) : jsTrim (jsTrim s) = jsTrim s := by
  simp only [jsTrim]
  exact congrArg String.mk (jsTrimList_idem s.data)

/-! ### Helper lemmas: the frame of `recomputeTileDerivedFields`

The recomputation spreads the input tile and overrides only
`aggregateType`, `fieldCategory` and the derived view fields; every
configuration and runtime-state field is returned unchanged. -/

theorem recomputeCore_index (L : String) (t : Tile) :
    (recomputeCore L t).index = t.index := rfl

theorem recomputeCore_label (L : String) (t : Tile) :
    (recomputeCore L t).label = t.label := rfl

theorem recomputeCore_aggregateFieldApiName (L : String) (t : Tile) :
    (recomputeCore L t).aggregateFieldApiName = t.aggregateFieldApiName := rfl

theorem recomputeCore_initialAggregationType (L : String) (t : Tile) :
    (recomputeCore L t).initialAggregationType = t.initialAggregationType := rfl

theorem recomputeCore_filterCondition (L : String) (t : Tile) :
    (recomputeCore L t).filterCondition = t.filterCondition := rfl

theorem recomputeCore_decimalPlaces (L : String) (t : Tile) :
    (recomputeCore L t).decimalPlaces = t.decimalPlaces := rfl

theorem recomputeCore_isLoading (L : String) (t : Tile) :
    (recomputeCore L t).isLoading = t.isLoading := rfl

theorem recomputeCore_error (L : String) (t : Tile) :
    (recomputeCore L t).error = t.error := rfl

theorem recomputeCore_value (L : String) (t : Tile) :
    (recomputeCore L t).value = t.value := rfl

theorem recomputeCore_recordCount (L : String) (t : Tile) :
    (recomputeCore L t).recordCount = t.recordCount := rfl

theorem recomputeCore_isCurrency (L : String) (t : Tile) :
    (recomputeCore L t).isCurrency = t.isCurrency := rfl

theorem recomputeCore_isPercent (L : String) (t : Tile) :
    (recomputeCore L t).isPercent = t.isPercent := rfl

theorem recomputeCore_isDate (L : String) (t : Tile) :
    (recomputeCore L t).isDate = t.isDate := rfl

theorem recomputeCore_fieldLabel (L : String) (t : Tile) :
    (recomputeCore L t).fieldLabel = t.fieldLabel := rfl

theorem recomputeCore_isAggregationMenuOpen (L : String) (t : Tile) :
    (recomputeCore L t).isAggregationMenuOpen = t.isAggregationMenuOpen := rfl

/-- The `displayValue` produced by the recomputation, extracted. -/
theorem recomputeCore_displayValue (L : String) (t : Tile) :
    (recomputeCore L t).displayValue =
      computeDisplayValue t.value
        (NUMERIC_TYPES.contains (normalizedAggTypeOf t) &&
          !(t.isDate && (normalizedAggTypeOf t = ("MIN" : String) ||
            normalizedAggTypeOf t = ("MAX" : String))))
        t.decimalPlaces t.isCurrency t.isPercent := rfl

/-! ### Helper lemmas: `normalizeAggTypeValue` -/

/-- The canonical trimmed-and-uppercased core of `normalizeAggTypeValue`. -/
theorem normalizeAggTypeValue_some (s : String) :
    normalizeAggTypeValue (some s) =
      (if (jsToUpper (jsTrim s)).isEmpty then none
       else if jsToUpper (jsTrim s) = ("AVG" : String) then some ("AVERAGE")
       else some (jsToUpper (jsTrim s))) := rfl

theorem jsToUpper_of_jsToUpper_jsTrim (s : String) :
    jsToUpper (jsToUpper (jsTrim s)) = jsToUpper (jsTrim s) :=
  jsToUpper_idem (jsTrim s)

theorem jsTrim_of_jsToUpper_jsTrim (s : String) :
    jsTrim (jsToUpper (jsTrim s)) = jsToUpper (jsTrim s) := by
  rw [jsToUpper_jsTrim_comm, jsTrim_idem, ← jsToUpper_jsTrim_comm]

theorem jsToUpper_eq_empty_iff (s : String) : jsToUpper s = ("" : String) ↔ s = "" := by
  constructor
  · intro h
    cases s with
    | mk l =>
      have hd : (jsToUpper ⟨l⟩).data = ("" : String).data := congrArg String.data h
      simp only [jsToUpper] at hd
      have hmap : l.map asciiUpperChar = [] := hd
      have hl : l = [] := List.map_eq_nil_iff.mp hmap
      rw [hl]
  · intro h
    rw [h]
    rfl

theorem strContainsSub_append_right (x y z : String) :
    strContainsSub (x ++ (y ++ z)) y = true := by
  rw [← String.append_assoc]
  exact strContainsSub_append x y z

/-! ### Helper lemmas: context congruence (which fields are read) -/

theorem normalizeDimension_none (raw : Option String) (mi ma : Int)
    (h : jsParseInt raw = none) : normalizeDimension raw mi ma = mi := by
  unfold normalizeDimension
  rw [h]

theorem normalizeDimension_some (raw : Option String) (mi ma n : Int)
    (h : jsParseInt raw = some n) :
    normalizeDimension raw mi ma =
      (if n < mi then mi else if n > ma then ma else n) := by
  unfold normalizeDimension
  rw [h]

theorem normalizeDimension_bounds (raw : Option String) (mi ma : Int) (h : mi ≤ ma) :
    mi ≤ normalizeDimension raw mi ma ∧ normalizeDimension raw mi ma ≤ ma := by
  cases hp : jsParseInt raw with
  | none =>
    rw [normalizeDimension_none raw mi ma hp]
    exact ⟨le_refl mi, h⟩
  | some n =>
    rw [normalizeDimension_some raw mi ma n hp]
    by_cases h1 : n < mi
    · rw [if_pos h1]
      exact ⟨le_refl mi, h⟩
    · rw [if_neg h1]
      by_cases h2 : n > ma
      · rw [if_pos h2]
        exact ⟨h, le_refl ma⟩
      · rw [if_neg h2]
        exact ⟨by omega, by omega⟩

theorem childObjectLabelSingular_congr (a b : GridContext)
    (h1 : a.childObjectApiName = b.childObjectApiName)
    (h2 : a.grandchildObjectApiName = b.grandchildObjectApiName)
    (h3 : a.grandchildRelationshipFieldApiName =
      b.grandchildRelationshipFieldApiName) :
    childObjectLabelSingular a = childObjectLabelSingular b := by
  unfold childObjectLabelSingular aggregateObjectApiNameForLabel isGrandchildMode
  rw [h1, h2, h3]

theorem recompute_ctx_congr (a b : GridContext) (t : Tile)
    (h : childObjectLabelSingular a = childObjectLabelSingular b) :
    recomputeTileDerivedFields a t = recomputeTileDerivedFields b t := by
  unfold recomputeTileDerivedFields
  rw [h]

theorem buildInitialTileConfig_congr (a b : GridContext) (k : Nat)
    (hc : a.childObjectApiName = b.childObjectApiName)
    (hg1 : a.grandchildObjectApiName = b.grandchildObjectApiName)
    (hg2 : a.grandchildRelationshipFieldApiName =
      b.grandchildRelationshipFieldApiName)
    (hd : a.decimalPlaces = b.decimalPlaces)
    (hl : a.tileLabel k = b.tileLabel k)
    (hf : a.tileAggregateFieldApiName k = b.tileAggregateFieldApiName k)
    (ha : a.tileInitialAggregationType k = b.tileInitialAggregationType k)
    (hfc : a.tileFilterCondition k = b.tileFilterCondition k) :
    buildInitialTileConfig a k = buildInitialTileConfig b k := by
  unfold buildInitialTileConfig
  rw [hl, hf, ha, hfc, hd]
  exact recompute_ctx_congr a b _ (childObjectLabelSingular_congr a b hc hg1 hg2)

/-! ### Helper lemmas: counting open menus -/

/-- The number of tiles whose aggregation menu is open. -/
def openMenuCount (tiles : List Tile) : Nat :=
  tiles.countP (·.isAggregationMenuOpen)

theorem countP_map_le (f : Tile → Tile) (p q : Tile → Bool) (l : List Tile)
    (h : ∀ t, p (f t) = true → q t = true) :
    (l.map f).countP p ≤ l.countP q := by
  induction l with
  | nil => simp
  | cons t ts ih =>
    rw [List.map_cons, List.countP_cons, List.countP_cons]
    by_cases hp : p (f t) = true
    · rw [if_pos hp, if_pos (h t hp)]
      omega
    · rw [if_neg hp]
      by_cases hq : q t = true
      · rw [if_pos hq]
        omega
      · rw [if_neg hq]
        omega

theorem countP_index_le_one (tiles : List Tile) (index : Nat)
    (h : (tiles.map (·.index)).Nodup) :
    tiles.countP (fun t => t.index = index) ≤ 1 := by
  induction tiles with
  | nil => simp
  | cons t ts ih =>
    rw [List.map_cons, List.nodup_cons] at h
    rw [List.countP_cons]
    by_cases ht : t.index = index
    · have hzero : ts.countP (fun t => t.index = index) = 0 := by
        rw [List.countP_eq_zero]
        intro u hu habs
        have hmem : u.index ∈ ts.map (·.index) := List.mem_map_of_mem _ hu
        have hui : u.index = index := of_decide_eq_true habs
        rw [hui, ← ht] at hmem
        exact h.1 hmem
      rw [hzero]
      simp [ht]
    · rw [if_neg (by simpa using ht)]
      have := ih h.2
      omega

/-! ### Concrete instances used by counterexamples and witnesses -/

/-- A fully configured demo instance: one tile aggregating `Amount__c` of
`Project__c` with SUM, two decimal places. -/
def ctxDemo : GridContext :=
  { recordId := some ("r1")
    rows := some ("1")
    columns := some ("1")
    childObjectApiName := some ("Project__c")
    relationshipFieldApiName := some ("Parent__c")
    grandchildObjectApiName := none
    grandchildRelationshipFieldApiName := none
    decimalPlaces := some 2
    tileLabel := fun _ => none
    tileAggregateFieldApiName := fun i => if i = 1 then some ("Amount__c") else none
    tileInitialAggregationType := fun i => if i = 1 then some ("SUM") else none
    tileFilterCondition := fun _ => none }

/-- The demo instance with the child object left unset. -/
def ctxNoChild : GridContext :=
  { ctxDemo with childObjectApiName := none }

/-- The demo tile as materialized at slot 1. -/
def tileDemo : Tile := buildInitialTileConfig ctxDemo 1

/-! ### The claims -/

/-- C10: `recomputeTileDerivedFields` leaves every configuration and
runtime-state field of the input tile unchanged — index, label,
aggregateFieldApiName, initialAggregationType, filterCondition,
decimalPlaces, isLoading, error, value, recordCount, isCurrency,
isPercent, isDate, fieldLabel and isAggregationMenuOpen are equal in
input and output — rewriting only aggregateType, fieldCategory and the
derived view fields. -/
theorem claim_C10_recompute_frame (ctx : GridContext) (tile : Tile) :
    (recomputeTileDerivedFields ctx tile).index = tile.index ∧
    (recomputeTileDerivedFields ctx tile).label = tile.label ∧
    (recomputeTileDerivedFields ctx tile).aggregateFieldApiName =
      tile.aggregateFieldApiName ∧
    (recomputeTileDerivedFields ctx tile).initialAggregationType =
      tile.initialAggregationType ∧
    (recomputeTileDerivedFields ctx tile).filterCondition = tile.filterCondition ∧
    (recomputeTileDerivedFields ctx tile).decimalPlaces = tile.decimalPlaces ∧
    (recomputeTileDerivedFields ctx tile).isLoading = tile.isLoading ∧
    (recomputeTileDerivedFields ctx tile).error = tile.error ∧
    (recomputeTileDerivedFields ctx tile).value = tile.value ∧
    (recomputeTileDerivedFields ctx tile).recordCount = tile.recordCount ∧
    (recomputeTileDerivedFields ctx tile).isCurrency = tile.isCurrency ∧
    (recomputeTileDerivedFields ctx tile).isPercent = tile.isPercent ∧
    (recomputeTileDerivedFields ctx tile).isDate = tile.isDate ∧
    (recomputeTileDerivedFields ctx tile).fieldLabel = tile.fieldLabel ∧
    (recomputeTileDerivedFields ctx tile).isAggregationMenuOpen =
      tile.isAggregationMenuOpen :=
  ⟨rfl, rfl, rfl, rfl, rfl, rfl, rfl, rfl, rfl, rfl, rfl, rfl, rfl, rfl, rfl⟩

/-- C6: `normalizeAggTypeValue` is case-insensitive and idempotent, trims
and upper-cases its input, maps the legacy alias avg to AVERAGE, and
returns null for empty or absent input. -/
theorem claim_C6_normalize_algebra :
    (∀ s t : String, jsToUpper s = jsToUpper t →
      normalizeAggTypeValue (some s) = normalizeAggTypeValue (some t)) ∧
    (∀ x : Option String,
      normalizeAggTypeValue (normalizeAggTypeValue x) = normalizeAggTypeValue x) ∧
    normalizeAggTypeValue (some ("avg")) = some ("AVERAGE") ∧
    normalizeAggTypeValue none = none ∧
    (∀ s : String, jsTrim s = ("" : String) →
      normalizeAggTypeValue (some s) = none) ∧
    (∀ s : String, jsTrim s ≠ ("" : String) →
      normalizeAggTypeValue (some s) =
        (if jsToUpper (jsTrim s) = ("AVG" : String) then some ("AVERAGE")
         else some (jsToUpper (jsTrim s)))) := by
  refine ⟨?_, ?_, by decide, rfl, ?_, ?_⟩
  · intro s t h
    have key : jsToUpper (jsTrim s) = jsToUpper (jsTrim t) := by
      rw [jsToUpper_jsTrim_comm, jsToUpper_jsTrim_comm, h]
    rw [normalizeAggTypeValue_some, normalizeAggTypeValue_some, key]
  · intro x
    cases x with
    | none => rfl
    | some s =>
      rw [normalizeAggTypeValue_some s]
      by_cases he : (jsToUpper (jsTrim s)).isEmpty = true
      · rw [if_pos he]
        rfl
      · rw [if_neg he]
        by_cases ha : jsToUpper (jsTrim s) = ("AVG" : String)
        · rw [if_pos ha]
          decide
        · rw [if_neg ha]
          rw [normalizeAggTypeValue_some (jsToUpper (jsTrim s))]
          rw [jsTrim_of_jsToUpper_jsTrim, jsToUpper_idem]
          rw [if_neg he, if_neg ha]
  · intro s h
    rw [normalizeAggTypeValue_some, h]
    rfl
  · intro s h
    rw [normalizeAggTypeValue_some]
    have he : (jsToUpper (jsTrim s)).isEmpty = false := by
      rw [Bool.eq_false_iff]
      intro habs
      exact h ((jsToUpper_eq_empty_iff (jsTrim s)).mp
        ((String.isEmpty_iff _).mp habs))
    rw [he]
    simp only [Bool.false_eq_true, if_false]

/-- Witness for C6 at concrete inputs: the mixed-case alias and a padded
string normalize as claimed. -/
theorem claim_C6_normalize_algebra_witness :
    normalizeAggTypeValue (some ("aVg")) = normalizeAggTypeValue (some ("Avg")) ∧
    normalizeAggTypeValue (normalizeAggTypeValue (some (" sum "))) =
      normalizeAggTypeValue (some (" sum ")) ∧
    normalizeAggTypeValue (some ("  ")) = none ∧
    normalizeAggTypeValue (some (" max ")) =
      (if jsToUpper (jsTrim (" max ")) = ("AVG" : String) then some ("AVERAGE")
       else some (jsToUpper (jsTrim (" max ")))) :=
  ⟨claim_C6_normalize_algebra.1 ("aVg") ("Avg") (by decide),
   claim_C6_normalize_algebra.2.1 (some (" sum ")),
   claim_C6_normalize_algebra.2.2.2.2.1 ("  ") (by decide),
   claim_C6_normalize_algebra.2.2.2.2.2 (" max ") (by decide)⟩

/-- C8: a listening instance bound to a record id calls `refreshAll()` for
a received refresh signal exactly when the signal does not carry a
non-empty `sourceRecordId` different from its own record id; in
particular two instances bound to different record ids never trigger each
other (the emitting instance broadcasts its own record id). -/
theorem claim_C8_refresh_gating :
    (∀ sourceRecordId recordId : Option String, jsTruthy recordId = true →
      (handleGlobalRefresh sourceRecordId recordId = true ↔
        ¬(jsTruthy sourceRecordId = true ∧ sourceRecordId ≠ recordId))) ∧
    (∀ rA rB : Option String, jsTruthy rA = true → jsTruthy rB = true →
      rA ≠ rB → handleGlobalRefresh (refreshSignalOf rA) rB = false) := by
  constructor
  · intro src mine hmine
    unfold handleGlobalRefresh
    by_cases h : jsTruthy src = true ∧ jsTruthy mine = true ∧ src ≠ mine
    · rw [if_pos h]
      constructor
      · intro hfalse
        cases hfalse
      · intro hnot
        exact absurd ⟨h.1, h.2.2⟩ hnot
    · rw [if_neg h]
      constructor
      · intro _ hcontra
        exact h ⟨hcontra.1, hmine, hcontra.2⟩
      · intro _
        rfl
  · intro rA rB hA hB hne
    have hsig : refreshSignalOf rA = rA := by
      unfold refreshSignalOf
      rw [if_pos hA]
    unfold handleGlobalRefresh
    rw [hsig, if_pos ⟨hA, hB, hne⟩]

/-- C7: each grid dimension is clamped into [1,5] (non-numeric or
below-minimum input gives 1, above-maximum gives 5), the number of
materialized tile slots is `min(rows*columns, 25)` and never exceeds 25,
and no tile beyond that slot count is instantiated or has its
configuration read: the materialized tiles are exactly the slots
1..slotCount and depend only on the configuration of those slots. -/
theorem claim_C7_layout_clamp :
    (∀ raw : Option String,
      1 ≤ normalizeDimension raw 1 MAX_ROWS ∧
        normalizeDimension raw 1 MAX_ROWS ≤ 5) ∧
    (∀ raw : Option String, jsParseInt raw = none →
      normalizeDimension raw 1 MAX_ROWS = 1) ∧
    (∀ (raw : Option String) (n : Int), jsParseInt raw = some n → n < 1 →
      normalizeDimension raw 1 MAX_ROWS = 1) ∧
    (∀ (raw : Option String) (n : Int), jsParseInt raw = some n → 5 < n →
      normalizeDimension raw 1 MAX_ROWS = 5) ∧
    (∀ ctx : GridContext,
      (initializeTilesFromConfig ctx).length = slotCount ctx ∧
      slotCount ctx =
        min ((normalizedRows ctx).toNat * (normalizedColumns ctx).toNat) 25 ∧
      slotCount ctx ≤ 25) ∧
    (∀ ctx : GridContext, ∀ t ∈ initializeTilesFromConfig ctx,
      1 ≤ t.index ∧ t.index ≤ slotCount ctx) ∧
    (∀ a b : GridContext,
      a.rows = b.rows → a.columns = b.columns →
      a.childObjectApiName = b.childObjectApiName →
      a.grandchildObjectApiName = b.grandchildObjectApiName →
      a.grandchildRelationshipFieldApiName =
        b.grandchildRelationshipFieldApiName →
      a.decimalPlaces = b.decimalPlaces →
      (∀ i : Nat, 1 ≤ i → i ≤ slotCount a →
        a.tileLabel i = b.tileLabel i ∧
        a.tileAggregateFieldApiName i = b.tileAggregateFieldApiName i ∧
        a.tileInitialAggregationType i = b.tileInitialAggregationType i ∧
        a.tileFilterCondition i = b.tileFilterCondition i) →
      initializeTilesFromConfig a = initializeTilesFromConfig b) := by
  refine ⟨?_, ?_, ?_, ?_, ?_, ?_, ?_⟩
  · intro raw
    exact normalizeDimension_bounds raw 1 MAX_ROWS (by norm_num [MAX_ROWS])
  · intro raw h
    exact normalizeDimension_none raw 1 MAX_ROWS h
  · intro raw n h hlt
    rw [normalizeDimension_some raw 1 MAX_ROWS n h, if_pos hlt]
  · intro raw n h hgt
    rw [normalizeDimension_some raw 1 MAX_ROWS n h]
    rw [if_neg (by omega : ¬n < 1), if_pos (by exact hgt)]
    rfl
  · intro ctx
    refine ⟨?_, rfl, Nat.min_le_right _ _⟩
    unfold initializeTilesFromConfig
    rw [List.length_map, List.length_range]
  · intro ctx t ht
    obtain ⟨i, hi, rfl⟩ := List.mem_map.mp ht
    have hir : i < slotCount ctx := List.mem_range.mp hi
    have hidx : (buildInitialTileConfig ctx (i + 1)).index = i + 1 := rfl
    rw [hidx]
    omega
  · intro a b hr hc hco hg1 hg2 hd htiles
    have hslot : slotCount a = slotCount b := by
      unfold slotCount normalizedRows normalizedColumns
      rw [hr, hc]
    unfold initializeTilesFromConfig
    rw [hslot]
    apply List.map_congr_left
    intro i hi
    have hib : i < slotCount b := List.mem_range.mp hi
    obtain ⟨h1, h2, h3, h4⟩ := htiles (i + 1) (by omega) (by omega)
    exact buildInitialTileConfig_congr a b (i + 1) hco hg1 hg2 hd h1 h2 h3 h4

/-- Witness for C7: rows 0 clamps to 1, rows 100 clamps to 5, and a 5 by 6
request materializes 25 tiles. -/
theorem claim_C7_layout_clamp_witness :
    normalizeDimension (some ("0")) 1 MAX_ROWS = 1 ∧
    normalizeDimension (some ("100")) 1 MAX_ROWS = 5 ∧
    normalizeDimension none 1 MAX_ROWS = 1 ∧
    (initializeTilesFromConfig
      { ctxDemo with rows := some ("100"), columns := some ("6") }).length ≤ 25 := by
  refine ⟨?_, ?_, ?_, ?_⟩
  · exact claim_C7_layout_clamp.2.2.1 (some ("0")) 0 (by decide) (by decide)
  · exact claim_C7_layout_clamp.2.2.2.1 (some ("100")) 100 (by decide) (by decide)
  · exact claim_C7_layout_clamp.2.1 none (by decide)
  · have h := claim_C7_layout_clamp.2.2.2.2.1
      { ctxDemo with rows := some ("100"), columns := some ("6") }
    rw [h.1]
    exact h.2.2

/-- C9: within one grid instance at most one aggregation menu is open:
all tiles start with the menu closed (and with distinct slot indices),
toggling one tile's gear menu leaves at most one open menu because every
other tile's menu closes, `closeAllAggregationMenus` (used by the root
click, the outside click and the cross-instance close signal) leaves no
menu open, a menu-item click never opens a menu, and the gear handler
preserves the tile indices, so the invariant is maintained. -/
theorem claim_C9_menu_exclusivity :
    (∀ ctx : GridContext,
      (∀ t ∈ initializeTilesFromConfig ctx, t.isAggregationMenuOpen = false) ∧
      ((initializeTilesFromConfig ctx).map (·.index)).Nodup) ∧
    (∀ (ctx : GridContext) (tiles : List Tile) (index : Nat),
      index ≠ 0 → (tiles.map (·.index)).Nodup →
      openMenuCount (handleGearClick ctx tiles index) ≤ 1) ∧
    (∀ (ctx : GridContext) (tiles : List Tile),
      openMenuCount (closeAllAggregationMenus ctx tiles) = 0) ∧
    (∀ (ctx : GridContext) (tiles : List Tile) (index : Nat)
      (raw : Option String),
      openMenuCount (handleAggregationMenuClick ctx tiles index raw) ≤
        openMenuCount tiles) ∧
    (∀ (ctx : GridContext) (tiles : List Tile) (index : Nat),
      (handleGearClick ctx tiles index).map (·.index) = tiles.map (·.index)) := by
  refine ⟨?_, ?_, ?_, ?_, ?_⟩
  · intro ctx
    constructor
    · intro t ht
      obtain ⟨i, _, rfl⟩ := List.mem_map.mp ht
      rfl
    · have hmap : (initializeTilesFromConfig ctx).map (·.index) =
          (List.range (slotCount ctx)).map (fun i => i + 1) := by
        unfold initializeTilesFromConfig
        rw [List.map_map]
        apply List.map_congr_left
        intro i _
        rfl
      rw [hmap]
      exact (List.nodup_range _).map (fun x y hxy => by omega)
  · intro ctx tiles index hidx hnd
    unfold handleGearClick
    rw [if_neg hidx]
    refine le_trans (countP_map_le _ _ (fun t => t.index = index) tiles ?_)
      (countP_index_le_one tiles index hnd)
    intro t hopen
    by_cases h0 : t.index = index
    · simpa using h0
    · exfalso
      rw [if_neg h0] at hopen
      by_cases h1 : t.isAggregationMenuOpen = true
      · rw [if_pos h1] at hopen
        exact Bool.false_ne_true hopen
      · rw [if_neg h1] at hopen
        exact h1 hopen
  · intro ctx tiles
    unfold closeAllAggregationMenus
    by_cases hany : tiles.any (·.isAggregationMenuOpen) = true
    · rw [if_pos hany]
      rw [openMenuCount, List.countP_eq_zero]
      intro t' ht'
      obtain ⟨t0, _, rfl⟩ := List.mem_map.mp ht'
      by_cases h0 : t0.isAggregationMenuOpen = true
      · rw [if_pos h0]
        intro habs
        exact Bool.false_ne_true habs
      · rw [if_neg h0]
        simpa using h0
    · rw [if_neg hany]
      rw [openMenuCount, List.countP_eq_zero]
      intro t ht habs
      rw [List.any_eq_true] at hany
      exact hany ⟨t, ht, by simpa using habs⟩
  · intro ctx tiles index raw
    unfold handleAggregationMenuClick
    by_cases h0 : index = 0
    · rw [if_pos h0]
    · rw [if_neg h0]
      by_cases hup : (jsToUpper (raw.getD (""))).isEmpty = true
      · rw [if_pos hup]
        apply countP_map_le
        intro t hopen
        by_cases ht : t.index = index
        · exfalso
          rw [if_pos ht] at hopen
          exact Bool.false_ne_true hopen
        · rw [if_neg ht] at hopen
          exact hopen
      · rw [if_neg hup]
        apply countP_map_le
        intro t hopen
        by_cases ht : t.index ≠ index
        · rw [if_pos ht] at hopen
          exact hopen
        · exfalso
          rw [if_neg ht] at hopen
          exact Bool.false_ne_true hopen
  · intro ctx tiles index
    unfold handleGearClick
    by_cases h0 : index = 0
    · rw [if_pos h0]
    · rw [if_neg h0, List.map_map]
      apply List.map_congr_left
      intro t _
      show (if t.index = index then
          recomputeTileDerivedFields ctx
            { t with isAggregationMenuOpen := !t.isAggregationMenuOpen }
        else if t.isAggregationMenuOpen then
          recomputeTileDerivedFields ctx { t with isAggregationMenuOpen := false }
        else t).index = t.index
      by_cases ht : t.index = index
      · rw [if_pos ht]
        rfl
      · rw [if_neg ht]
        by_cases hm : t.isAggregationMenuOpen = true
        · rw [if_pos hm]
          rfl
        · rw [if_neg hm]

/-- Witness for C9: on a freshly initialized demo grid, clicking the gear
of tile 1 leaves at most one open menu, and closing all menus leaves
none. -/
theorem claim_C9_menu_exclusivity_witness :
    openMenuCount
      (handleGearClick ctxDemo (initializeTilesFromConfig ctxDemo) 1) ≤ 1 ∧
    openMenuCount
      (closeAllAggregationMenus ctxDemo (initializeTilesFromConfig ctxDemo)) = 0 :=
  ⟨claim_C9_menu_exclusivity.2.1 ctxDemo (initializeTilesFromConfig ctxDemo) 1
      (by decide) (claim_C9_menu_exclusivity.1 ctxDemo).2,
   claim_C9_menu_exclusivity.2.2.1 ctxDemo (initializeTilesFromConfig ctxDemo)⟩

/-- The scenario-C service response: value 1234.5, currency flagged. -/
def respScenarioC : RollupResponse :=
  { value := some ("1234.5")
    recordCount := none
    isCurrency := true
    isPercent := false
    isDate := false
    fieldLabel := none
    errorMessage := none }

/-- C1 counterexample: the tile of the demo instance (decimalPlaces 2),
after settling successfully with value 1234.5 and isCurrency, does NOT
display `$1,234.50`: the code passes `minimumFractionDigits: 0` to the
formatter, so the trailing zero is not padded. -/
theorem claim_C1_counterexample :
    (applySettledData ctxDemo tileDemo (some respScenarioC)).displayValue ≠
      ("$1,234.50") := by decide

/-- C1 (amended): the same settlement displays `$1,234.5` — parsed as a
float, grouped, rounded to at most 2 fraction digits with no trailing-zero
padding, and prefixed with the dollar sign; when the percent flag is also
set the dollar prefix still wins (never both wrappers), and a
percent-only response gets the percent suffix instead. -/
theorem claim_C1_display_value :
    (applySettledData ctxDemo tileDemo (some respScenarioC)).displayValue =
      ("$1,234.5") ∧
    (applySettledData ctxDemo tileDemo
        (some { respScenarioC with isPercent := true })).displayValue =
      ("$1,234.5") ∧
    (applySettledData ctxDemo tileDemo
        (some { respScenarioC with isCurrency := false, isPercent := true
                })).displayValue = ("1,234.5%") := by decide

/-- C3 counterexample: a tile currently selecting COUNT has its
aggregation type rewritten to `COUNT()` by the legacy variant before the
service call, so the parameter is not passed verbatim for every request
in this repository. -/
theorem claim_C3_counterexample :
    selectedAggregateType { tileDemo with aggregateType := some ("COUNT") } =
      ("COUNT") ∧
    (buildLegacyRollupRequest ctxDemo
        { tileDemo with aggregateType := some ("COUNT") }).aggregateType =
      ("COUNT()") ∧
    (buildLegacyRollupRequest ctxDemo
        { tileDemo with aggregateType := some ("COUNT") }).aggregateType ≠
      ("COUNT") := by decide

/-- C3 (amended): the grandchild-capable variant sends the currently
selected aggregation type verbatim — including COUNT — passes
filterCondition through unmodified, and sends the grandchild identifiers
exactly when grandchild mode is active and explicit nulls otherwise; the
legacy variant sends the same parameters except that COUNT is rewritten
to `COUNT()`. -/
theorem claim_C3_request_passthrough (ctx : GridContext) (tile : Tile)
    (s : String) (hs : tile.aggregateType = some s) (hne : s ≠ ("" : String)) :
    (buildRollupRequest ctx tile).aggregateType = s ∧
    (buildRollupRequest ctx tile).filterCondition = tile.filterCondition ∧
    (isGrandchildMode ctx = true →
      (buildRollupRequest ctx tile).grandchildObjectApiName =
        ctx.grandchildObjectApiName ∧
      (buildRollupRequest ctx tile).grandchildRelationshipFieldApiName =
        ctx.grandchildRelationshipFieldApiName) ∧
    (isGrandchildMode ctx = false →
      (buildRollupRequest ctx tile).grandchildObjectApiName = none ∧
      (buildRollupRequest ctx tile).grandchildRelationshipFieldApiName = none) ∧
    (buildLegacyRollupRequest ctx tile).aggregateType =
      (if s = ("COUNT" : String) then "COUNT()" else s) ∧
    (buildLegacyRollupRequest ctx tile).filterCondition = tile.filterCondition := by
  have hemp : s.isEmpty = false := by
    rw [Bool.eq_false_iff]
    intro h
    exact hne ((String.isEmpty_iff s).mp h)
  have hsel : selectedAggregateType tile = s := by
    unfold selectedAggregateType
    rw [hs]
    simp [jsOr, jsTruthy, hemp]
  refine ⟨hsel, rfl, ?_, ?_, ?_, rfl⟩
  · intro hgc
    simp [buildRollupRequest, hgc]
  · intro hgc
    simp [buildRollupRequest, hgc]
  · simp only [buildLegacyRollupRequest, legacyAggregateTypeToUse, hsel]

/-- Witness for C3: on the demo instance (no grandchild configuration) a
tile selecting AVERAGE is sent verbatim by both variants with explicit
nulls for the grandchild parameters. -/
theorem claim_C3_request_passthrough_witness :
    (buildRollupRequest ctxDemo
      { tileDemo with aggregateType := some ("AVERAGE") }).aggregateType =
      ("AVERAGE") ∧
    (buildRollupRequest ctxDemo
      { tileDemo with aggregateType := some ("AVERAGE") }).grandchildObjectApiName =
      none :=
  ⟨(claim_C3_request_passthrough ctxDemo _ ("AVERAGE") rfl (by decide)).1,
   ((claim_C3_request_passthrough ctxDemo
      { tileDemo with aggregateType := some ("AVERAGE") } ("AVERAGE") rfl
      (by decide)).2.2.2.1 (by decide)).1⟩

/-- C2: `loadTile` checks its preconditions in order, each failure is a
terminal error state without any service request: an incomplete shared
configuration puts the global configuration message (which names
Child Object when the child object is the missing piece) on the tile,
and otherwise a tile without a configured aggregate field gets a per-tile
message naming the tile index — for tile 3 it contains Tile 3 and
Aggregate Field. -/
theorem claim_C2_precondition_order :
    (∀ (ctx : GridContext) (tiles : List Tile) (index : Nat) (msg : String),
      globalConfigError ctx = some msg →
      (loadTileSync ctx tiles index).2 = none ∧
      ∀ t ∈ (loadTileSync ctx tiles index).1, t.index = index →
        t.error = some msg ∧ t.isLoading = false) ∧
    (∀ (ctx : GridContext) (tiles : List Tile) (index : Nat) (tile : Tile),
      globalConfigError ctx = none →
      tiles.find? (fun t => t.index = index) = some tile →
      jsTruthy tile.aggregateFieldApiName = false →
      (loadTileSync ctx tiles index).2 = none ∧
      ∀ t ∈ (loadTileSync ctx tiles index).1, t.index = index →
        t.error = some (perTileConfigMessage index) ∧ t.isLoading = false) ∧
    (∀ ctx : GridContext, jsTruthy ctx.childObjectApiName = false →
      ∃ msg, globalConfigError ctx = some msg ∧
        strContainsSub msg ("Child Object") = true) ∧
    strContainsSub (perTileConfigMessage 3) ("Tile 3") = true ∧
    strContainsSub (perTileConfigMessage 3) ("Aggregate Field") = true := by
  refine ⟨?_, ?_, ?_, by decide, by decide⟩
  · intro ctx tiles index msg h
    have hstep : loadTileStart ctx tiles index = .globalError msg := by
      unfold loadTileStart
      rw [h]
    constructor
    · simp [loadTileSync, hstep]
    · intro t ht hidx
      simp only [loadTileSync, hstep] at ht
      obtain ⟨t0, _, rfl⟩ := List.mem_map.mp ht
      by_cases h0 : t0.index = index
      · rw [if_pos h0]
        exact ⟨rfl, rfl⟩
      · rw [if_neg h0] at hidx ⊢
        exact absurd hidx h0
  · intro ctx tiles index tile hg hfind hagg
    have hstep : loadTileStart ctx tiles index =
        .tileConfigError (perTileConfigMessage index) := by
      unfold loadTileStart
      rw [hg, hfind]
      simp [hagg]
    constructor
    · simp [loadTileSync, hstep]
    · intro t ht hidx
      simp only [loadTileSync, hstep] at ht
      obtain ⟨t0, _, rfl⟩ := List.mem_map.mp ht
      by_cases h0 : t0.index = index
      · rw [if_pos h0]
        exact ⟨rfl, rfl⟩
      · rw [if_neg h0] at hidx ⊢
        exact absurd hidx h0
  · intro ctx h
    have hlist : globalMissingList ctx =
        ("Child Object" : String) ::
          ((if jsTruthy ctx.relationshipFieldApiName then []
            else ["Relationship Field (lookup on child)"]) ++
           (if trimTruthy ctx.grandchildObjectApiName ||
               trimTruthy ctx.grandchildRelationshipFieldApiName then
             (if jsTruthy ctx.grandchildObjectApiName then []
              else ["Grandchild Object"]) ++
             (if jsTruthy ctx.grandchildRelationshipFieldApiName then []
              else ["Relationship Field (lookup on grandchild)"])
           else [])) := by
      unfold globalMissingList
      rw [h]
      simp
    refine ⟨"Rollup Tile Grid is not fully configured yet. Missing: " ++
        joinCommaSpace (globalMissingList ctx) ++
        ". In the Lightning App Builder, set these properties (and at minimum configure \"Tile 1 Aggregate Field\") before using this component.",
      ?_, ?_⟩
    · simp only [globalConfigError]
      rw [hlist]
      rfl
    · rw [hlist, joinCommaSpace_cons]
      rw [String.append_assoc, String.append_assoc]
      exact strContainsSub_append_right _ _ _

/-- Witness for C2: on a context missing the child object, loading tile 1
yields no request and the global message names Child Object; the per-tile
message of tile 3 names Tile 3 and Aggregate Field. -/
theorem claim_C2_precondition_order_witness :
    ((loadTileSync ctxNoChild [tileDemo] 1).2 = none) ∧
    (∃ msg, globalConfigError ctxNoChild = some msg ∧
      strContainsSub msg ("Child Object") = true) := by
  constructor
  · exact (claim_C2_precondition_order.1 ctxNoChild [tileDemo] 1
      ((globalConfigError ctxNoChild).getD ("")) (by decide)).1
  · exact claim_C2_precondition_order.2.2.1 ctxNoChild (by decide)

/-- C4: when the service settles with a response carrying a non-empty
`errorMessage`, the tile takes that exact message as its error, still
adopts the metadata fields (recordCount, isCurrency, isPercent, isDate,
fieldLabel) of the response, and the value is excluded from display: the
display value becomes the dash. -/
theorem claim_C4_business_error_metadata (ctx : GridContext) (tile : Tile)
    (d : RollupResponse) (m : String)
    (hm : d.errorMessage = some m) (hne : m ≠ ("" : String)) :
    (applySettledData ctx tile (some d)).error = some m ∧
    (applySettledData ctx tile (some d)).recordCount = d.recordCount ∧
    (applySettledData ctx tile (some d)).isCurrency = d.isCurrency ∧
    (applySettledData ctx tile (some d)).isPercent = d.isPercent ∧
    (applySettledData ctx tile (some d)).isDate = d.isDate ∧
    (applySettledData ctx tile (some d)).fieldLabel = d.fieldLabel ∧
    (applySettledData ctx tile (some d)).displayValue = ("-" : String) := by
  have hemp : m.isEmpty = false := by
    rw [Bool.eq_false_iff]
    intro h
    exact hne ((String.isEmpty_iff m).mp h)
  have htruthy : jsTruthy d.errorMessage = true := by
    rw [hm]
    simp [jsTruthy, hemp]
  simp only [applySettledData, htruthy, if_true]
  exact ⟨hm, rfl, rfl, rfl, rfl, rfl, rfl⟩

/-- Witness for C4: a concrete business-error response settles into an
error tile that keeps the metadata and shows the dash. -/
theorem claim_C4_business_error_metadata_witness :
    (applySettledData ctxDemo tileDemo
      (some { value := some ("42"), recordCount := some 7, isCurrency := true,
              isPercent := false, isDate := false, fieldLabel := some ("Amount"),
              errorMessage := some ("Invalid field") })).error =
        some ("Invalid field") ∧
    (applySettledData ctxDemo tileDemo
      (some { value := some ("42"), recordCount := some 7, isCurrency := true,
              isPercent := false, isDate := false, fieldLabel := some ("Amount"),
              errorMessage := some ("Invalid field") })).displayValue = ("-" : String) :=
  ⟨(claim_C4_business_error_metadata ctxDemo tileDemo _ ("Invalid field") rfl
      (by decide)).1,
   (claim_C4_business_error_metadata ctxDemo tileDemo _ ("Invalid field") rfl
      (by decide)).2.2.2.2.2.2⟩

/-- C5: an aggregate type among SUM, AVERAGE, MAX, MIN, COUNT and
COUNT_DISTINCT is treated as numeric for display formatting, except that
a date-flagged tile with MIN or MAX renders the raw value unmodified
(no parse, no grouping, no currency or percent wrapping). -/
theorem claim_C5_date_minmax_exception (ctx : GridContext) (tile : Tile)
    (v : String) (hv : tile.value = some v) (hvne : v ≠ ("" : String))
    (hnum : NUMERIC_TYPES.contains (normalizedAggTypeOf tile) = true) :
    ((tile.isDate = true ∧ (normalizedAggTypeOf tile = ("MIN" : String) ∨
        normalizedAggTypeOf tile = ("MAX" : String))) →
      (recomputeTileDerivedFields ctx tile).displayValue = v) ∧
    (¬(tile.isDate = true ∧ (normalizedAggTypeOf tile = ("MIN" : String) ∨
        normalizedAggTypeOf tile = ("MAX" : String))) →
      (recomputeTileDerivedFields ctx tile).displayValue =
        computeDisplayValue (some v) true tile.decimalPlaces tile.isCurrency
          tile.isPercent) := by
  have hve : v.isEmpty = false := by
    rw [Bool.eq_false_iff]
    intro h
    exact hvne ((String.isEmpty_iff v).mp h)
  have hdv :
      (recomputeTileDerivedFields ctx tile).displayValue =
        computeDisplayValue tile.value
          (NUMERIC_TYPES.contains (normalizedAggTypeOf tile) &&
            !(tile.isDate && (normalizedAggTypeOf tile = ("MIN" : String) ||
              normalizedAggTypeOf tile = ("MAX" : String))))
          tile.decimalPlaces tile.isCurrency tile.isPercent :=
    recomputeCore_displayValue (childObjectLabelSingular ctx) tile
  constructor
  · rintro ⟨hdate, hmm⟩
    have hbool :
        (NUMERIC_TYPES.contains (normalizedAggTypeOf tile) &&
          !(tile.isDate && (normalizedAggTypeOf tile = ("MIN" : String) ||
            normalizedAggTypeOf tile = ("MAX" : String)))) = false := by
      rw [hdate]
      cases hmm with
      | inl h => simp [h]
      | inr h => simp [h]
    rw [hdv, hbool, hv]
    simp [computeDisplayValue, hve]
  · intro hnotdate
    have hbool :
        (NUMERIC_TYPES.contains (normalizedAggTypeOf tile) &&
          !(tile.isDate && (normalizedAggTypeOf tile = ("MIN" : String) ||
            normalizedAggTypeOf tile = ("MAX" : String)))) = true := by
      rw [hnum, Bool.true_and, Bool.not_eq_true']
      by_cases hd : tile.isDate = true
      · have hmm : ¬(normalizedAggTypeOf tile = ("MIN" : String) ∨
            normalizedAggTypeOf tile = ("MAX" : String)) :=
          fun hor => hnotdate ⟨hd, hor⟩
        rw [hd, Bool.true_and]
        simp [not_or] at hmm
        simp [hmm.1, hmm.2]
      · rw [Bool.not_eq_true] at hd
        rw [hd, Bool.false_and]
    rw [hdv, hbool, hv]

/-- Witness for C5: a date-flagged MIN tile shows its raw ISO date string
unmodified, and the same tile without the date flag goes through the
numeric formatting path. -/
theorem claim_C5_date_minmax_exception_witness :
    (recomputeTileDerivedFields
      { recordId := none, rows := none, columns := none,
        childObjectApiName := some ("Project__c"),
        relationshipFieldApiName := some ("Parent__c"),
        grandchildObjectApiName := none,
        grandchildRelationshipFieldApiName := none,
        decimalPlaces := some 2,
        tileLabel := fun _ => none,
        tileAggregateFieldApiName := fun _ => none,
        tileInitialAggregationType := fun _ => none,
        tileFilterCondition := fun _ => none }
      { index := 1, label := none, aggregateFieldApiName := none,
        initialAggregationType := some ("MIN"), filterCondition := none,
        decimalPlaces := some 2, fieldCategory := some ("numeric"),
        aggregateType := some ("MIN"), isLoading := false, error := none,
        value := some ("2024-01-31"), recordCount := none, isCurrency := false,
        isPercent := false, isDate := true, fieldLabel := none,
        isAggregationMenuOpen := false, displayValue := "-",
        hasRecordCount := false, summaryRecordLabel := none,
        summaryLabel := none, aggregationMenuOptions := [],
        gearMenuClass := "" }).displayValue = ("2024-01-31") :=
  (claim_C5_date_minmax_exception _ _ ("2024-01-31") rfl (by decide)
      (by decide)).1 ⟨rfl, Or.inl (by decide)⟩

/-- Witness for C8: a bound listener refreshes on a matching signal and a
listener bound to a different record ignores the signal. -/
theorem claim_C8_refresh_gating_witness :
    (handleGlobalRefresh (some ("recA")) (some ("recA")) = true ↔
      ¬(jsTruthy (some ("recA")) = true ∧
        (some ("recA") : Option String) ≠ some ("recA"))) ∧
    handleGlobalRefresh (refreshSignalOf (some ("recA"))) (some ("recB")) = false :=
  ⟨claim_C8_refresh_gating.1 (some ("recA")) (some ("recA")) (by decide),
   claim_C8_refresh_gating.2 (some ("recA")) (some ("recB")) (by decide)
     (by decide) (by decide)⟩

end RollupGrid
